import Mathlib

/-!
# Verification of the cocoon-compiler worker services

A shallow embedding, in Lean 4, of the decision logic of the cocoon-compiler
worker (TypeScript sources: `updater.ts`, `compiler.ts`, `notifier.ts`,
`builder.ts`, `builder_android.ts`, `builder_windows.ts`, `builder_launcher.ts`,
`service.ts`, `globals.ts`).  Filesystem, network and subprocess effects are
represented by explicit inputs (oracles and outcome values); the pure decision
logic is translated statement by statement from the sources.

Conventions used throughout:
* JavaScript strings are modelled as Lean `String`s over their characters
  (the sources only ever handle ASCII file names and messages, so UTF-16
  code-unit indexing and character indexing coincide on all inputs of
  interest).
* A JavaScript value that may be `undefined`/`null` is an `Option`;
  JavaScript string truthiness (`undefined`, `null` and `""` are falsy) is
  the `truthy` predicate below.
* A JavaScript runtime exception (`TypeError`) is the `error` branch of an
  `Except JsErr` result.
-/

namespace Cocoon

/-- A JavaScript runtime exception relevant to this code base. -/
inductive JsErr where
  | typeError
  deriving DecidableEq, Repr

/-- Environment tag, from `globals.ts` (`CocoonEnvironment`). -/
inductive CocoonEnvironment where
  | DEVELOP
  | TESTING
  | PRODUCTION
  deriving DecidableEq, Repr

/-- Structured build error, from `builder_error.ts` (`BuilderError`):
a pair of an internal message and a user-visible public message. -/
structure BuilderError where
  message : String
  msgPublic : String
  deriving DecidableEq, Repr

/-- JavaScript string truthiness on an optional string field:
`undefined`/`null` and the empty string are falsy. -/
def truthy : Option String → Bool
  | none => false
  | some s => s ≠ ""

/- ============================================================
   Notifier (`notifier.ts`) — claims C4 and C5
   ============================================================ -/

/-- `MAX_RETRIES_NUMBER` from `notifier.ts` line 39. -/
def MAX_RETRIES_NUMBER : Nat := 20

/-- Payload of a queued notification, from `notifier.ts`
(`INotificationData`).  A missing `code` is modelled by `""`
(the source tests it with JavaScript truthiness: `!notification.code`). -/
structure NotificationData where
  platform : String
  code : String
  starttime : Nat
  msg_internal : Option String
  msg_public : Option String
  deriving DecidableEq, Repr

/-- A message dequeued from the mongodb-backed queue, from `notifier.ts`
(`IMongoQueueMessage`). -/
structure QueueMessage where
  ack : String
  tries : Nat
  payload : NotificationData
  deriving DecidableEq, Repr

/-- Outcome of the multipart POST to `/api/v1/compilation/{code}`:
either a transport-level error (the `error` argument of the request
callback) or an HTTP status code. -/
inductive PostOutcome where
  | transport
  | status (code : Nat)
  deriving DecidableEq, Repr

/-- Observable effects of one `Notifier.loop` iteration. -/
structure NotifierEffects where
  /-- the HTTP POST to the backend was issued (`Notifier.send` builds and
  sends the request; in DEVELOP it returns success without posting) -/
  posted : Bool
  /-- `queue.ack` was invoked -/
  ackAttempted : Bool
  /-- `queue.ack` was invoked and reported success -/
  acked : Bool
  /-- `Notifier.clean` was invoked -/
  cleaned : Bool
  /-- `Notifier.clean` removed the job workspace directory (it only does so
  when the environment is not DEVELOP, `notifier.ts` lines 231-241) -/
  removedWorkspace : Bool
  deriving DecidableEq, Repr

/-- No effect at all (empty queue / error getting a message). -/
def NotifierEffects.none : NotifierEffects :=
  ⟨false, false, false, false, false⟩

/-- Success predicate of `Notifier.send` (`notifier.ts` lines 164-225):
in DEVELOP the callback succeeds immediately without any POST; otherwise
the callback succeeds exactly when the POST has no transport error and the
status code is in `[200, 400)`. -/
def sendSucceeds (env : CocoonEnvironment) (post : PostOutcome) : Bool :=
  if env = .DEVELOP then true
  else match post with
    | .transport => false
    | .status c => 200 ≤ c && c < 400

/-- One iteration of `Notifier.loop` (`notifier.ts` lines 75-162), as a
function of the dequeued message (`none` when the queue is empty), the POST
outcome, and whether the queue `ack` operation succeeds when attempted.
The `ping` call only logs on failure and does not gate the send
(`notifier.ts` lines 123-130), so it is not modelled. -/
def notifierLoop (env : CocoonEnvironment) (msg : Option QueueMessage)
    (post : PostOutcome) (ackOk : Bool) : NotifierEffects :=
  match msg with
  | none => NotifierEffects.none
  | some m =>
    if m.tries > MAX_RETRIES_NUMBER then
      -- lines 95-109: ack to discard; on ack error, return without cleaning;
      -- on ack success, clean the workspace
      { posted := false
        ackAttempted := true
        acked := ackOk
        cleaned := ackOk
        removedWorkspace := ackOk && env ≠ .DEVELOP }
    else if m.payload.code = "" then
      -- lines 116-121: malformed (falsy code): clean and drop, no ack
      { posted := false
        ackAttempted := false
        acked := false
        cleaned := true
        removedWorkspace := env ≠ .DEVELOP }
    else
      -- lines 132-154: send, then ack and clean only on send success
      let posted := env ≠ .DEVELOP
      if sendSucceeds env post then
        { posted := posted
          ackAttempted := true
          acked := ackOk
          cleaned := ackOk
          removedWorkspace := ackOk && env ≠ .DEVELOP }
      else
        { posted := posted
          ackAttempted := false
          acked := false
          cleaned := false
          removedWorkspace := false }

/- ============================================================
   Windows name gate (`builder_windows.ts`) — claim C7
   ============================================================ -/

/-- The member call `s.length()` on a JavaScript string.  `length` is a
data property of strings, not a method, so invoking it as a function
raises `TypeError: ... .length is not a function` for every string.
`WindowsBuilder.build` (`builder_windows.ts` line 54) performs exactly
this call on the project name returned by `ConfigParser.name()` (which is
a plain string). -/
def jsStringLengthCall (_s : String) : Except JsErr Nat :=
  .error .typeError

/-- The project-name gate at the top of `WindowsBuilder.build`
(`builder_windows.ts` lines 54-60): evaluate `cfg.name().length() > 40`
and, were it to evaluate, reject long names with the public error.
`ok none` would mean "check passed, proceed to the build tasks". -/
def windowsNameGate (name : String) : Except JsErr (Option BuilderError) := do
  let len ← jsStringLengthCall name
  if len > 40 then
    return some
      ⟨"msbuild.exe doesn't accept application names longer than 40 characters. Cancelling compilation...",
       "Windows compilations can't have names longer than 40 characters. Choose a shorter name."⟩
  else
    return none

/- ============================================================
   Build-child launcher (`builder_launcher.ts`) — claim C10
   ============================================================ -/

/-- Result of the launcher once the five-stage pipeline reaches a terminal
state (`builder_launcher.ts`, the `builder.start` callback).
`sentMessage = some x` means a single IPC message `x` was sent
(`x = none` encodes the `null` success message). -/
structure LauncherOutcome where
  sentMessage : Option (Option BuilderError)
  exitCode : Int
  deriving DecidableEq, Repr

/-- The `builder.start` callback of `builder_launcher.ts` (lines 435-453):
with an IPC channel (`process.send` present), send the error (or `null`)
and exit 0; from the console, log and exit -1 on error, 0 on success. -/
def launcherFinish (ipc : Bool) (err : Option BuilderError) : LauncherOutcome :=
  match err with
  | some e =>
    if ipc then { sentMessage := some (some e), exitCode := 0 }
    else { sentMessage := none, exitCode := -1 }
  | none =>
    if ipc then { sentMessage := some none, exitCode := 0 }
    else { sentMessage := none, exitCode := 0 }

/- ============================================================
   Android builder (`builder_android.ts`) — claim C8
   ============================================================ -/

/-- The options record passed to `Builder.compile` → `cordova.build`
(`IBuildOptionsOpts`, the fields `AndroidBuilder.options` sets). -/
structure BuildOptionsOpts where
  release : Bool
  device : Bool
  buildConfig : Option String
  deriving DecidableEq, Repr

/-- `AndroidBuilder.options(release)` (`builder_android.ts` lines
185-200): `release` as given, `device := true`, and a `buildConfig`
pointing at the workspace `build.json` only for signed jobs. -/
def androidOptions (signed : Bool) (cordovaProjectPath : String)
    (release : Bool) : BuildOptionsOpts :=
  { release := release
    device := true
    buildConfig :=
      if signed then some (cordovaProjectPath ++ "/build.json") else none }

/-- The tasks `AndroidBuilder.build` pushes onto its waterfall. -/
inductive AndroidTask where
  | createCertsFolder
  | keystore
  | buildJson
  | compile (opts : BuildOptionsOpts)
  deriving DecidableEq, Repr

/-- The task list assembled by `AndroidBuilder.build` (`builder_android.ts`
lines 55-90): signing tasks only when a key is present; then two `compile`
invocations (debug, then release) without a key, one (release) with one. -/
def androidBuildTasks (signed : Bool) (cordovaProjectPath : String) :
    List AndroidTask :=
  (if signed then
    [AndroidTask.createCertsFolder, AndroidTask.keystore, AndroidTask.buildJson]
   else []) ++
  (if !signed then
    [AndroidTask.compile (androidOptions signed cordovaProjectPath false),
     AndroidTask.compile (androidOptions signed cordovaProjectPath true)]
   else
    [AndroidTask.compile (androidOptions signed cordovaProjectPath true)])

/-- The native-build invocations among a task list, in order. -/
def compileInvocations (tasks : List AndroidTask) : List BuildOptionsOpts :=
  tasks.filterMap fun t => match t with
    | .compile o => some o
    | _ => none

/-- JavaScript `String.prototype.endsWith`, over characters. -/
def jsEndsWith (s pat : String) : Bool :=
  pat.toList.reverse.isPrefixOf s.toList.reverse

/-- The end-anchored alternation
`/\/(android|app)(-armv7|-x86)?-release\.apk$/` of the signed pack filter
(`builder_android.ts` line 103) denotes exactly the paths ending in one of
these six suffixes. -/
def releaseApkSuffixes : List String :=
  ["android", "app"].bind fun b =>
    ["", "-armv7", "-x86"].map fun m => "/" ++ b ++ m ++ "-release.apk"

/-- Likewise
`/\/(android|app)(-armv7|-x86)?-(debug|release)(-unsigned)?\.apk$/`
(line 105) denotes the paths ending in one of these 24 suffixes. -/
def unsignedApkSuffixes : List String :=
  ["android", "app"].bind fun b =>
    ["", "-armv7", "-x86"].bind fun m =>
      ["debug", "release"].bind fun d =>
        ["", "-unsigned"].map fun u =>
          "/" ++ b ++ m ++ "-" ++ d ++ u ++ ".apk"

/-- The `filterFn` of `AndroidBuilder.pack` (`builder_android.ts` lines
101-107), with the two regular expressions rendered as their equivalent
finite suffix tests. -/
def androidPackFilter (signed : Bool) (p : String) : Bool :=
  if signed then releaseApkSuffixes.any fun suf => jsEndsWith p suf
  else unsignedApkSuffixes.any fun suf => jsEndsWith p suf

/-- The files `AndroidBuilder.pack` zips: the APK directory listing
filtered by `filterFn` (line 108). -/
def androidPack (signed : Bool) (files : List String) : List String :=
  files.filter (androidPackFilter signed)

/- ============================================================
   Disk-pressure cleanup (`builder.ts`) — claim C9
   ============================================================ -/

/-- One filesystem's `diskusage.check` result (bytes). -/
structure DiskSpace where
  available : Nat
  total : Nat
  deriving DecidableEq, Repr

/-- The disk-pressure condition of `Builder.cleanUp` (`builder.ts` lines
485-486): root below 1 GiB or below 25%, or home below **10 GiB** or
below 25%.  The JavaScript `available < total * 25 / 100` on byte counts
is the exact rational comparison `100 * available < 25 * total`. -/
def cleanUpTriggers (root home : DiskSpace) : Bool :=
  (root.available < 1 * 1024 ^ 3) ||
  (100 * root.available < 25 * root.total) ||
  (home.available < 10 * 1024 ^ 3) ||
  (100 * home.available < 25 * home.total)

/-- Whether one build-child pipeline run ends by purging the tmp entries
and the package-manager cache: `Builder.start`'s final callback invokes
`cleanUp` only outside DEVELOP (`builder.ts` lines 311-313), and the
purge body runs exactly when the disk-pressure condition holds. -/
def builderPipelinePurge (env : CocoonEnvironment) (root home : DiskSpace) : Bool :=
  (env ≠ CocoonEnvironment.DEVELOP) && cleanUpTriggers root home

/-- The per-entry removal test of `Builder.removeTmpFiles` (`builder.ts`
lines 520-535): directories whose name begins with `npm-` or `git`,
removed unconditionally on win32 and only when owned by the current user
elsewhere. -/
def shouldRemoveTmpEntry (isWin32 : Bool) (entryName : String)
    (isDir : Bool) (uidMatches : Bool) : Bool :=
  isDir && (entryName.startsWith "npm-" || entryName.startsWith "git") &&
    (isWin32 || uidMatches)

/- ============================================================
   Theorems for C4, C5, C7, C10
   ============================================================ -/

/-- **C4** — For every message dequeued by the Notifier with `tries > 20`,
the Notifier acks it (permanent removal) without POSTing the result to the
backend, and then cleans the job's workspace directory, the workspace
removal happening outside DEVELOP.  (The clean only follows an ack the
queue reports as successful, hence the `ackOk` hypothesis.) -/
theorem notifier_discards_after_max_retries (env : CocoonEnvironment)
    (m : QueueMessage) (post : PostOutcome) (ackOk : Bool)
    (htries : m.tries > 20) (hq : ackOk = true) :
    (notifierLoop env (some m) post ackOk).posted = false ∧
    (notifierLoop env (some m) post ackOk).ackAttempted = true ∧
    (notifierLoop env (some m) post ackOk).acked = true ∧
    (notifierLoop env (some m) post ackOk).cleaned = true ∧
    ((notifierLoop env (some m) post ackOk).removedWorkspace =
      (env ≠ CocoonEnvironment.DEVELOP : Bool)) := by
  subst hq
  simp [notifierLoop, MAX_RETRIES_NUMBER, htries]

theorem notifier_discards_after_max_retries_witness :
    (21 > 20) ∧
    (notifierLoop .TESTING
      (some ⟨"a", 21, ⟨"android", "C1", 0, Option.none, Option.none⟩⟩)
      (.status 200) true).posted = false := by
  have h := notifier_discards_after_max_retries .TESTING
    ⟨"a", 21, ⟨"android", "C1", 0, Option.none, Option.none⟩⟩
    (.status 200) true (by decide) rfl
  exact ⟨by decide, h.1⟩

/-- **C5** — For every dequeued notification with `tries ≤ 20` and a
non-empty code, outside DEVELOP and with a functioning queue ack, the
Notifier acks the message and removes the job workspace directory if and
only if the result POST completes with a status code in `[200, 400)`;
on a transport error or a status `≥ 400` the message is not acked — the
`queue.ack` call is not even attempted, so the message stays in flight
for redelivery after the visibility window — and the workspace is neither
cleaned nor removed. -/
theorem notifier_ack_iff_post_ok (env : CocoonEnvironment)
    (m : QueueMessage) (post : PostOutcome) (ackOk : Bool)
    (henv : env ≠ .DEVELOP) (htries : m.tries ≤ 20)
    (hcode : m.payload.code ≠ "") (hq : ackOk = true) :
    (((notifierLoop env (some m) post ackOk).acked = true ∧
      (notifierLoop env (some m) post ackOk).removedWorkspace = true) ↔
      (∃ c, post = .status c ∧ 200 ≤ c ∧ c < 400)) ∧
    ((post = .transport ∨ ∃ c, post = .status c ∧ 400 ≤ c) →
      (notifierLoop env (some m) post ackOk).ackAttempted = false ∧
      (notifierLoop env (some m) post ackOk).acked = false ∧
      (notifierLoop env (some m) post ackOk).cleaned = false ∧
      (notifierLoop env (some m) post ackOk).removedWorkspace = false) ∧
    ((notifierLoop env (some m) post ackOk).acked = false →
      (notifierLoop env (some m) post ackOk).cleaned = false ∧
      (notifierLoop env (some m) post ackOk).removedWorkspace = false) := by
  subst hq
  have hnot : ¬ (m.tries > MAX_RETRIES_NUMBER) := by
    simpa [MAX_RETRIES_NUMBER] using htries
  have hsend : sendSucceeds env post =
      (match post with
        | .transport => false
        | .status c => 200 ≤ c && c < 400) := by
    simp [sendSucceeds, henv]
  simp only [notifierLoop, if_neg hnot, if_neg hcode, hsend]
  cases post with
  | transport => simp
  | status c =>
    by_cases h : 200 ≤ c ∧ c < 400
    · have hb : (200 ≤ c && c < 400) = true := by
        simp [h.1, h.2]
      simp only [hb]
      refine ⟨?_, ?_, ?_⟩
      · constructor
        · intro _
          exact ⟨c, rfl, h⟩
        · intro _
          refine ⟨rfl, ?_⟩
          simp [henv]
      · rintro (hfail | ⟨c2, hc2, hge⟩)
        · exact absurd hfail (by simp)
        · cases hc2
          omega
      · intro hfalse
        simp at hfalse
    · have hb : (200 ≤ c && c < 400) = false := by
        rcases Nat.lt_or_ge c 200 with hlt | hge
        · simp [Nat.not_le.mpr hlt]
        · rcases Nat.lt_or_ge c 400 with hlt2 | hge2
          · exact absurd ⟨hge, hlt2⟩ h
          · simp [Nat.not_lt.mpr hge2]
      simp only [hb]
      refine ⟨?_, ?_, ?_⟩
      · constructor
        · intro hcontra
          exact absurd hcontra.1 (by simp)
        · rintro ⟨c2, hc2, hrange⟩
          cases hc2
          exact absurd hrange h
      · intro _
        exact ⟨rfl, rfl, rfl, rfl⟩
      · intro _
        exact ⟨rfl, rfl⟩

theorem notifier_ack_iff_post_ok_witness :
    ((notifierLoop .TESTING
        (some ⟨"a", 3, ⟨"android", "C2", 0, Option.none, Option.none⟩⟩)
        (.status 201) true).acked = true ∧
      (notifierLoop .TESTING
        (some ⟨"a", 3, ⟨"android", "C2", 0, Option.none, Option.none⟩⟩)
        (.status 201) true).removedWorkspace = true) ∧
    ((notifierLoop .TESTING
        (some ⟨"a", 3, ⟨"android", "C2", 0, Option.none, Option.none⟩⟩)
        (.status 500) true).ackAttempted = false ∧
      (notifierLoop .TESTING
        (some ⟨"a", 3, ⟨"android", "C2", 0, Option.none, Option.none⟩⟩)
        (.status 500) true).removedWorkspace = false) := by
  constructor
  · have h := notifier_ack_iff_post_ok .TESTING
      ⟨"a", 3, ⟨"android", "C2", 0, Option.none, Option.none⟩⟩
      (.status 201) true (by decide) (by decide) (by decide) rfl
    exact h.1.mpr ⟨201, rfl, by decide, by decide⟩
  · have h := notifier_ack_iff_post_ok .TESTING
      ⟨"a", 3, ⟨"android", "C2", 0, Option.none, Option.none⟩⟩
      (.status 500) true (by decide) (by decide) (by decide) rfl
    have h2 := h.2.1 (Or.inr ⟨500, rfl, by decide⟩)
    exact ⟨h2.1, h2.2.2.2⟩

/- ============================================================
   Updater (`updater.ts`) — claims C1 and C6
   ============================================================ -/

/-- Split a character list on `/` (helper for `basename`/`dirname`). -/
def splitSlash : List Char → List (List Char)
  | [] => [[]]
  | c :: rest =>
    if c = '/' then [] :: splitSlash rest
    else match splitSlash rest with
      | [] => [[c]]
      | p :: ps => (c :: p) :: ps

/-- `path.basename` on the POSIX-style S3 keys used by the updater
(`folder/file.tar.bz2`, no trailing separators). -/
def basename (s : String) : String :=
  match (splitSlash s.toList).getLast? with
  | some p => String.mk p
  | none => s

/-- `path.dirname` on the POSIX-style S3 keys used by the updater. -/
def dirname (s : String) : String :=
  match splitSlash s.toList with
  | [] => "."
  | [_] => "."
  | parts => String.mk (List.intercalate ['/'] parts.dropLast)

/-- Case-insensitive character comparison (all the updater's regular
expressions carry the `i` flag). -/
def ciEq (a b : Char) : Bool := a.toLower == b.toLower

/-- Strip a literal (case-insensitively) from the front of a character
list, returning the remainder on success. -/
def stripLitCi : List Char → List Char → Option (List Char)
  | [], s => some s
  | _ :: _, [] => none
  | l :: ls, c :: cs => if ciEq l c then stripLitCi ls cs else none

/-- Does the literal `lit` occur (case-insensitively) at the head of `s`? -/
def litAtCi (lit s : List Char) : Bool := (stripLitCi lit s).isSome

/-- Greedy backtracking for a regular expression fragment `CLASS+LIT`:
`revg` is the reverse of the maximal class run still claimed by the group
and `rest` what follows it; shrink the group from the right until `lit`
matches, returning the (longest) group.  This is exactly the backtracking
a JavaScript regex engine performs for `([class]+)lit`. -/
def backClassLit (lit : List Char) : List Char → List Char → Option (List Char)
  | [], _ => none
  | c :: revg, rest =>
    if litAtCi lit rest then some ((c :: revg).reverse)
    else backClassLit lit revg (c :: rest)

/-- Leftmost match of `/([class]+)lit/i` over a character list, returning
capture group 1: try every start position left to right; at each, take the
maximal class run and backtrack greedily against `lit`. -/
def matchClassLit (cls : Char → Bool) (lit : List Char) : List Char → Option (List Char)
  | [] => none
  | c :: rest =>
    let run := (c :: rest).takeWhile cls
    let after := (c :: rest).drop run.length
    match backClassLit lit run.reverse after with
    | some g => some g
    | none => matchClassLit cls lit rest

/-- Leftmost match of `/lit1([class]+)lit2/i`, returning capture group 1. -/
def matchLitClassLit (lit1 : List Char) (cls : Char → Bool) (lit2 : List Char) :
    List Char → Option (List Char)
  | [] => none
  | c :: rest =>
    match stripLitCi lit1 (c :: rest) with
    | some afterLit =>
      let run := afterLit.takeWhile cls
      let after := afterLit.drop run.length
      (match backClassLit lit2 run.reverse after with
       | some g => some g
       | none => matchLitClassLit lit1 cls lit2 rest)
    | none => matchLitClassLit lit1 cls lit2 rest

/-- The character class `[a-zA-Z0-9.\-?]` of the platforms/plugins/sdks
output-directory patterns in `Updater.getOutputDir`. -/
def platformsCls (c : Char) : Bool :=
  c.isAlpha || c.isDigit || c == '.' || c == '-' || c == '?'

/-- The character class `[0-9.?]` of the compilers pattern. -/
def compilersCls (c : Char) : Bool :=
  c.isDigit || c == '.' || c == '?'

/-- Matcher for the two libs patterns
`/(cordova-[0-9.]+)-[a-zA-Z]+\.tar\.bz2/i` (output dir, group 1 is the
`cordova-version` part) and `/cordova-[0-9.]+-([a-zA-Z]+)\.tar\.bz2/i`
(platform filter, group 1 is the OS part).  Both share one shape, so the
matcher returns the pair (version part including the `cordova-` literal,
OS part).  Because `[0-9.]` does not contain `-` and `[a-zA-Z]` does not
contain `.`, the greedy class runs admit no backtracking besides the
maximal one, so taking the maximal runs is equivalent to the regex
engine's search at each start position. -/
def matchLibs : List Char → Option (List Char × List Char)
  | [] => none
  | c :: rest =>
    match stripLitCi ("cordova-".toList) (c :: rest) with
    | some afterLit =>
      let runA := afterLit.takeWhile (fun ch => ch.isDigit || ch == '.')
      let afterA := afterLit.drop runA.length
      (if runA.isEmpty then matchLibs rest
       else match afterA with
        | '-' :: afterDash =>
          let runB := afterDash.takeWhile Char.isAlpha
          let afterB := afterDash.drop runB.length
          if !runB.isEmpty && litAtCi (".tar.bz2".toList) afterB then
            some ((c :: rest).take "cordova-".length ++ runA, runB)
          else matchLibs rest
        | _ => matchLibs rest)
    | none => matchLibs rest

/-- Greedy backtracking for the sdks platform-filter pattern
`[a-zA-Z.\-]+-([a-zA-Z0-9]+)\.tar\.bz2`: the class of the first run
contains `-`, so the regex engine backtracks the first group until the
literal `-` (followed by the second group and the tail literal) fits;
`revg` is the reverse of the first group still claimed, `rest` what
follows.  Returns capture group 1 (the second run). -/
def sdksTryA : List Char → List Char → Option (List Char)
  | [], _ => none
  | c :: revg, rest =>
    match rest with
    | '-' :: afterDash =>
      let runB := afterDash.takeWhile (fun ch => ch.isAlpha || ch.isDigit)
      let afterB := afterDash.drop runB.length
      if !runB.isEmpty && litAtCi (".tar.bz2".toList) afterB then some runB
      else sdksTryA revg (c :: rest)
    | _ => sdksTryA revg (c :: rest)

/-- Leftmost match of `/[a-zA-Z.\-]+-([a-zA-Z0-9]+)\.tar\.bz2/i`
(the sdks filter in `Updater.isPlatformFile`), returning capture group 1. -/
def matchSdks : List Char → Option (List Char)
  | [] => none
  | c :: rest =>
    let run := (c :: rest).takeWhile (fun ch => ch.isAlpha || ch == '.' || ch == '-')
    let after := (c :: rest).drop run.length
    match sdksTryA run.reverse after with
    | some g => some g
    | none => matchSdks rest

/-- The five tracked bucket folders (`globals.ts`:
`CORDOVA_PLATFORMS_FOLDER`, `CORDOVA_COMPILERS_FOLDER`,
`CORDOVA_PLUGINS_FOLDER`, `CORDOVA_LIBS_FOLDER`, `SDKS_FOLDER`). -/
def trackedFolders : List String :=
  ["platforms", "compilers", "plugins", "libs", "sdks"]

/-- `globals.envToString`. -/
def envToString : CocoonEnvironment → String
  | .DEVELOP => "develop"
  | .TESTING => "testing"
  | .PRODUCTION => "production"

/-- `globals.COMPILER_WORKSPACE_PATH`, with the home directory passed
explicitly (the source reads it from the process environment). -/
def COMPILER_WORKSPACE_PATH (home : String) (env : CocoonEnvironment) : String :=
  home ++ "/opt/cocoon_compiler/workspace/" ++ envToString env

/-- `globals.COMPILER_DATA_PATH`. -/
def COMPILER_DATA_PATH (home : String) (env : CocoonEnvironment) : String :=
  COMPILER_WORKSPACE_PATH home env ++ "/data"

/-- One entry of the S3 bucket listing (`IS3ContentData`), also one entry
of the persisted manifest `s3_structure.json`.  `LastModified` is the
ISO-8601 text of the timestamp: the remote side compares
`item.LastModified.toString()` (the persisted JSON string, produced by
`JSON.stringify` of a `Date`, i.e. its ISO form) against
`contentData.LastModified.toISOString()` (`updater.ts` line 376), so both
sides are the ISO string. -/
structure S3Entry where
  Key : String
  LastModified : String
  deriving DecidableEq, Repr

/-- Sync decision for one remote entry (`updater.ts` `SyncStatus`). -/
inductive SyncStatus where
  | IGNORE
  | DOWNLOAD
  | DELETE
  deriving DecidableEq, Repr

/-- `Updater.getOutputDir` (`updater.ts` lines 386-423): derive the
canonical output directory from the entry key.  Keys outside the tracked
folders yield `none` (the source returns `null`); inside a tracked folder
a filename that does not match the folder's pattern makes the source
evaluate `filename.match(pattern)[1]` on `null`, a `TypeError`. -/
def getOutputDir (home : String) (env : CocoonEnvironment) (key : String) :
    Except JsErr (Option String) :=
  let filename := basename key
  let dirName := dirname key
  let dataPath := COMPILER_DATA_PATH home env
  if dirName = "platforms" then
    match matchClassLit platformsCls (".tar.bz2".toList) filename.toList with
    | none => .error .typeError
    | some g => .ok (some (dataPath ++ "/platforms/" ++ String.mk g))
  else if dirName = "compilers" then
    match matchLitClassLit ("compiler_cordova_".toList) compilersCls
        (".tar.bz2".toList) filename.toList with
    | none => .error .typeError
    | some g => .ok (some (dataPath ++ "/compilers/" ++ String.mk g))
  else if dirName = "plugins" then
    match matchClassLit platformsCls (".tar.bz2".toList) filename.toList with
    | none => .error .typeError
    | some g => .ok (some (dataPath ++ "/plugins/" ++ String.mk g))
  else if dirName = "libs" then
    match matchLibs filename.toList with
    | none => .error .typeError
    | some g => .ok (some (dataPath ++ "/libs/" ++ String.mk g.1))
  else if dirName = "sdks" then
    match matchClassLit platformsCls (".tar.bz2".toList) filename.toList with
    | none => .error .typeError
    | some g => .ok (some (dataPath ++ "/sdks/" ++ String.mk g))
  else
    .ok none

/-- `Updater.isPlatformFile` (`updater.ts` lines 333-357): entries under
`libs/` and `sdks/` are kept only when the OS suffix encoded in the file
name equals the host OS; entries in the other tracked folders, and keys
outside the tracked folders, are kept unconditionally. -/
def isPlatformFile (osType : String) (key : String) : Except JsErr Bool :=
  let fileName := basename key
  let dirName := dirname key
  if trackedFolders.contains dirName then
    if dirName = "libs" then
      match matchLibs fileName.toList with
      | none => .error .typeError
      | some g => .ok (osType == String.mk g.2)
    else if dirName = "sdks" then
      match matchSdks fileName.toList with
      | none => .error .typeError
      | some g => .ok (osType == String.mk g)
    else .ok true
  else .ok true

/-- The manifest-scan loop of `Updater.getSyncStatus` (`updater.ts` lines
359-384): starting from `IGNORE`, scan the persisted entries; when one has
the same key as the remote entry (and the remote entry lies in a tracked
folder), answer `DOWNLOAD` if the local output directory is missing or the
stored `LastModified` differs; otherwise keep scanning.  `dirExists` is
the `fse.existsSync` oracle. -/
def getSyncStatus (home : String) (env : CocoonEnvironment)
    (dirExists : String → Bool) (contentData : S3Entry) :
    List S3Entry → Except JsErr SyncStatus
  | [] => .ok .IGNORE
  | item :: rest =>
    let dirName := dirname contentData.Key
    if trackedFolders.contains dirName && item.Key == contentData.Key then
      match getOutputDir home env contentData.Key with
      | .error e => .error e
      | .ok outDir =>
        let outExists := match outDir with
          | some d => dirExists d
          | none => false
        if !outExists then .ok .DOWNLOAD
        else if item.LastModified != contentData.LastModified then .ok .DOWNLOAD
        else getSyncStatus home env dirExists contentData rest
    else getSyncStatus home env dirExists contentData rest

/-- The per-entry decision of `Updater.sync` (`updater.ts` lines 198-211):
the status defaults to `DOWNLOAD`; only when the persisted manifest file
exists and parses to a truthy value is `getSyncStatus` consulted
(`manifestFile = none` covers both the missing and the unparsable file). -/
def syncObjectStatus (home : String) (env : CocoonEnvironment)
    (dirExists : String → Bool) (manifestFile : Option (List S3Entry))
    (contentData : S3Entry) : Except JsErr SyncStatus :=
  match manifestFile with
  | none => .ok .DOWNLOAD
  | some manifest => getSyncStatus home env dirExists contentData manifest

/-- The keys an `Updater.sync` pass downloads (and whose output
directories it empties and repopulates), in listing order. -/
def downloadKeys (home : String) (env : CocoonEnvironment)
    (dirExists : String → Bool) (manifestFile : Option (List S3Entry)) :
    List S3Entry → Except JsErr (List String)
  | [] => .ok []
  | e :: rest => do
    let st ← syncObjectStatus home env dirExists manifestFile e
    let tail ← downloadKeys home env dirExists manifestFile rest
    if st = .DOWNLOAD then pure (e.Key :: tail) else pure tail

/-- The platform filter applied to the bucket listing at the start of
`Updater.sync` (`updater.ts` lines 184-193). -/
def filterPlatform (osType : String) : List S3Entry → Except JsErr (List S3Entry)
  | [] => .ok []
  | e :: rest => do
    let keep ← isPlatformFile osType e.Key
    let tail ← filterPlatform osType rest
    if keep then pure (e :: tail) else pure tail

/-- The cross-iteration state the claims about `ready.lock` concern:
whether `data/ready.lock` exists and the content of `s3_structure.json`
(`none` when the file has never been written). -/
structure UpdaterState where
  readyLock : Bool
  s3Structure : Option (List S3Entry)
  deriving DecidableEq, Repr

/-- One iteration of `Updater.loop` (`updater.ts` lines 69-115) at the
level of the persisted state: `listing = none` models a failed bucket
listing and `syncOk = false` a failed download/extract step, either of
which aborts the waterfall before `save`, leaving the manifest and the
lock untouched.  On an error-free run the platform-filtered listing is
persisted to `s3_structure.json` and, exactly when that filtered listing
is non-empty, `ready.lock` is created or refreshed (lines 99-102).  The
returned `Bool` reports whether the lock was created/touched; note the
lock is never deleted. -/
def updaterIteration (osType home : String) (env : CocoonEnvironment)
    (st : UpdaterState) (listing : Option (List S3Entry)) (syncOk : Bool) :
    Except JsErr (UpdaterState × Bool) :=
  match listing with
  | none => .ok (st, false)
  | some contents => do
    let purged ← filterPlatform osType contents
    if syncOk then
      pure ({ readyLock := st.readyLock || !purged.isEmpty,
              s3Structure := some purged },
            !purged.isEmpty)
    else
      pure (st, false)

/- ============================================================
   Build-child supervision (`compiler.ts`, `Compiler.build`) —
   claims C2 and C3
   ============================================================ -/

/-- `Compiler.COMPILER_WATCHDOG_INTERVAL` (`compiler.ts` line 58):
2,700,000 ms (45 minutes) from spawn. -/
def COMPILER_WATCHDOG_INTERVAL : Nat := 2700000

/-- The error object delivered by the child's terminal IPC message.  Both
fields may be absent (`process.send` serializes whatever object the child
produced; a plain `Error` has no `msgPublic`), and the source tests them
with JavaScript truthiness. -/
structure IpcError where
  message : Option String
  msgPublic : Option String
  deriving DecidableEq, Repr

/-- The error the Builder resolves a build with.  `msgPublic = none`
models a plain `Error` without a `msgPublic` property (its notification
then carries no public message). -/
structure FinalError where
  message : String
  msgPublic : Option String
  deriving DecidableEq, Repr

/-- The watchdog's synthesized error (`compiler.ts` lines 367-370). -/
def watchdogError : FinalError :=
  ⟨"Compilation took too long, killing...",
   some "The compilation exceed the designated time."⟩

/-- JavaScript `s.slice(-n)`: the last `min n (length s)` code units,
realized by taking `n` characters from the reversed character list. -/
def jsSliceLast (n : Nat) (s : String) : String :=
  String.mk (s.toList.reverse.take n).reverse

/-- The `builder.on("message")` handler body for a non-null error
(`compiler.ts` lines 310-330).  `cordovaLog` is the content of the
workspace's `cordova.log` (`none` when the file does not exist, in which
case the source substitutes "No log available"); `stdoutLog` is the
content of `stdout.log` at the time of the read.  The
`replace(regex, "")` redaction of workspace/home absolute paths is the
identity on the pre-redacted oracle contents and is not modelled (no
claim concerns it).  Note that only the truthy-`msgPublic` branch caps
the appended log at the last 10,000 code units. -/
def augmentIpcError (cordovaLog : Option String) (stdoutLog : String)
    (e : IpcError) : FinalError :=
  let log := match cordovaLog with
    | none => "No log available"
    | some l => l
  let pub :=
    if truthy e.msgPublic then
      "COMPILER ERROR: \n\n" ++ e.msgPublic.getD "" ++ "\n\nCORDOVA LOG: \n\n"
        ++ jsSliceLast 10000 log
    else
      "CORDOVA LOG: \n\n" ++ log
  let msg := if truthy e.message then e.message.getD "" else stdoutLog
  ⟨msg, some pub⟩

/-- JavaScript stringification of a possibly-null number
(`"" + code` in the abnormal-exit message). -/
def jsShowOptInt : Option Int → String
  | none => "null"
  | some n => toString n

/-- JavaScript stringification of a possibly-null string
(`"" + signal` in the abnormal-exit message). -/
def jsShowOptStr : Option String → String
  | none => "null"
  | some s => s

/-- The events a spawned build child can deliver to the Builder:
the single terminal IPC message (`null` = success), process exit
(`code` is `null` when killed by a signal), a spawn-level error,
a chunk of captured stdout/stderr, and the watchdog timer firing. -/
inductive BuildEvent where
  | ipcMessage (err : Option IpcError)
  | exited (code : Option Int) (signal : Option String)
  | spawnFailed (message : String)
  | stdoutData (chunk : String)
  | watchdog
  deriving DecidableEq, Repr

/-- The supervision state of one `Compiler.build` call: the `cbCalled`
once-latch, whether the watchdog interval is still scheduled
(`clearInterval` not yet run), the resolved result (`some r` once the
waterfall callback has been invoked; `r = none` is success), whether
`builder.kill("SIGKILL")` was issued, and how many times the watchdog
handler has run. -/
structure BuildRunState where
  cbCalled : Bool
  timerActive : Bool
  result : Option (Option FinalError)
  killed : Bool
  wdFired : Nat
  deriving DecidableEq, Repr

/-- State right after `child_process.fork` and `setInterval`
(`compiler.ts` lines 274-288 and 362-372). -/
def initBuildRunState : BuildRunState :=
  ⟨false, true, Option.none, false, 0⟩

/-- `finishBuild` (`compiler.ts` lines 291-300): close the stdout stream,
`clearInterval` the watchdog, and invoke the waterfall callback only if it
has not been invoked yet (the once-latch). -/
def finishBuild (r : Option FinalError) (st : BuildRunState) : BuildRunState :=
  { st with
    timerActive := false
    cbCalled := true
    result := if st.cbCalled then st.result else some r }

/-- One event handler dispatch of `Compiler.build` (`compiler.ts` lines
302-372).  A watchdog event only has an effect while the interval is
scheduled (a cleared interval cannot fire); modelling it as a no-op
otherwise keeps every event list a valid input. -/
def buildStep (cordovaLog : Option String) (stdoutLog : String)
    (st : BuildRunState) : BuildEvent → BuildRunState
  | .ipcMessage (some e) =>
    finishBuild (some (augmentIpcError cordovaLog stdoutLog e)) st
  | .ipcMessage none => finishBuild Option.none st
  | .exited code signal =>
    if code ≠ some 0 then
      finishBuild (some ⟨"Process exited abnormally (" ++ jsShowOptStr signal
        ++ "): " ++ jsShowOptInt code, Option.none⟩) st
    else
      finishBuild Option.none st
  | .spawnFailed msg => finishBuild (some ⟨msg, Option.none⟩) st
  | .stdoutData _ => st
  | .watchdog =>
    if st.timerActive then
      finishBuild (some watchdogError)
        { st with killed := true, wdFired := st.wdFired + 1 }
    else st

/-- Run a chronologically ordered list of child events from the
post-spawn state. -/
def runBuild (cordovaLog : Option String) (stdoutLog : String)
    (es : List BuildEvent) : BuildRunState :=
  es.foldl (buildStep cordovaLog stdoutLog) initBuildRunState

/-- An event list is feasible when every watchdog event in it occurs while
the interval is still scheduled (a real `setInterval` cannot fire after
`clearInterval`). -/
def WatchdogFeasible (cordovaLog : Option String) (stdoutLog : String)
    (es : List BuildEvent) : Prop :=
  ∀ pre post, es = pre ++ .watchdog :: post →
    (runBuild cordovaLog stdoutLog pre).timerActive = true

/-- The notification built by the `Compiler.loop` waterfall callback
(`compiler.ts` lines 131-141) from the resolved result. -/
def notificationOf (jobCode platform : String) (starttime : Nat)
    (result : Option FinalError) : NotificationData :=
  { platform := platform
    code := jobCode
    starttime := starttime
    msg_internal := result.map FinalError.message
    msg_public := result.bind FinalError.msgPublic }

/-- Helper: a state that has already resolved (`cbCalled`) with its timer
cleared is frozen — further events change neither the result nor the kill
flag nor the fire count. -/
theorem buildRun_frozen (cordovaLog : Option String) (stdoutLog : String) :
    ∀ (es : List BuildEvent) (st : BuildRunState),
      st.cbCalled = true → st.timerActive = false →
      (es.foldl (buildStep cordovaLog stdoutLog) st).result = st.result ∧
      (es.foldl (buildStep cordovaLog stdoutLog) st).killed = st.killed ∧
      (es.foldl (buildStep cordovaLog stdoutLog) st).wdFired = st.wdFired := by
  intro es
  induction es with
  | nil => intro st h1 h2; exact ⟨rfl, rfl, rfl⟩
  | cons e es ih =>
    intro st h1 h2
    have hstep : buildStep cordovaLog stdoutLog st e =
        { st with timerActive := false, cbCalled := true } ∨
        buildStep cordovaLog stdoutLog st e = st := by
      cases e with
      | ipcMessage err =>
        cases err with
        | none => left; simp [buildStep, finishBuild, h1]
        | some e2 => left; simp [buildStep, finishBuild, h1]
      | exited code signal =>
        by_cases hc : code ≠ some 0
        · left; simp [buildStep, finishBuild, h1, hc]
        · left; simp [buildStep, finishBuild, h1, hc]
      | spawnFailed m => left; simp [buildStep, finishBuild, h1]
      | stdoutData c => right; simp [buildStep]
      | watchdog => right; simp [buildStep, h2]
    have hcb : (buildStep cordovaLog stdoutLog st e).cbCalled = true := by
      rcases hstep with h | h <;> rw [h] <;> simpa using h1
    have hta : (buildStep cordovaLog stdoutLog st e).timerActive = false := by
      rcases hstep with h | h <;> rw [h] <;> simpa using h2
    have := ih (buildStep cordovaLog stdoutLog st e) hcb hta
    rcases hstep with h | h <;> rw [h] at this <;>
      simpa [List.foldl_cons, h] using this

/-- Helper: a state with the timer still scheduled can only have been
reached by no-op events, so it is the state the run started from. -/
theorem buildRun_timer_fresh (cordovaLog : Option String) (stdoutLog : String) :
    ∀ (es : List BuildEvent) (st : BuildRunState),
      (es.foldl (buildStep cordovaLog stdoutLog) st).timerActive = true →
      es.foldl (buildStep cordovaLog stdoutLog) st = st := by
  intro es
  induction es with
  | nil => intro st _; rfl
  | cons e es ih =>
    intro st h
    have h2 := ih (buildStep cordovaLog stdoutLog st e) (by simpa using h)
    have hstep : buildStep cordovaLog stdoutLog st e = st := by
      by_contra hne
      have hta : (buildStep cordovaLog stdoutLog st e).timerActive = false := by
        cases e with
        | ipcMessage err => cases err <;> simp [buildStep, finishBuild]
        | exited code signal =>
          by_cases hc : code ≠ some 0 <;> simp [buildStep, finishBuild, hc]
        | spawnFailed m => simp [buildStep, finishBuild]
        | stdoutData c => exact absurd rfl hne
        | watchdog =>
          by_cases ht : st.timerActive = true
          · simp [buildStep, ht, finishBuild]
          · have hf : st.timerActive = false := by simpa using ht
            exact absurd (by simp [buildStep, hf]) hne
      rw [List.foldl_cons, h2, hta] at h
      exact Bool.false_ne_true h
    rw [List.foldl_cons, hstep]
    rw [hstep] at h2
    exact h2

/-- Helper: the watchdog handler runs at most once per child — its first
run clears its own interval, and nothing ever re-arms it. -/
theorem watchdog_at_most_once (cordovaLog : Option String) (stdoutLog : String)
    (es : List BuildEvent) :
    (runBuild cordovaLog stdoutLog es).wdFired ≤ 1 := by
  have frozen : ∀ (tl : List BuildEvent) (st : BuildRunState),
      st.timerActive = false →
      (tl.foldl (buildStep cordovaLog stdoutLog) st).wdFired = st.wdFired := by
    intro tl
    induction tl with
    | nil => intro st _; rfl
    | cons e tl ih =>
      intro st h
      have hstep : (buildStep cordovaLog stdoutLog st e).timerActive = false ∧
          (buildStep cordovaLog stdoutLog st e).wdFired = st.wdFired := by
        cases e with
        | ipcMessage err => cases err <;> simp [buildStep, finishBuild]
        | exited code signal =>
          by_cases hc : code ≠ some 0 <;> simp [buildStep, finishBuild, hc]
        | spawnFailed m => simp [buildStep, finishBuild]
        | stdoutData c => exact ⟨h, rfl⟩
        | watchdog => simp [buildStep, h]
      rw [List.foldl_cons]
      rw [ih _ hstep.1, hstep.2]
  induction es with
  | nil => simp [runBuild, initBuildRunState]
  | cons e es ih =>
    rw [runBuild, List.foldl_cons]
    have hstep : (buildStep cordovaLog stdoutLog initBuildRunState e).timerActive = false ∨
        buildStep cordovaLog stdoutLog initBuildRunState e = initBuildRunState := by
      cases e with
      | ipcMessage err => cases err <;> left <;> simp [buildStep, finishBuild]
      | exited code signal =>
        by_cases hc : code ≠ some 0 <;> left <;> simp [buildStep, finishBuild, hc]
      | spawnFailed m => left; simp [buildStep, finishBuild]
      | stdoutData c => right; simp [buildStep]
      | watchdog => left; simp [buildStep, initBuildRunState, finishBuild]
    have hwd : (buildStep cordovaLog stdoutLog initBuildRunState e).wdFired ≤ 1 := by
      cases e with
      | ipcMessage err => cases err <;> simp [buildStep, finishBuild, initBuildRunState]
      | exited code signal =>
        by_cases hc : code ≠ some 0 <;> simp [buildStep, finishBuild, hc, initBuildRunState]
      | spawnFailed m => simp [buildStep, finishBuild, initBuildRunState]
      | stdoutData c => simp [buildStep, initBuildRunState]
      | watchdog => simp [buildStep, finishBuild, initBuildRunState]
    rcases hstep with h | h
    · rw [frozen _ _ h]
      exact hwd
    · rw [h]
      exact ih

/-- **C1** — The claim says: with a persisted manifest present, a
platform-relevant remote entry whose `Key` does not appear in that
manifest is classified `DOWNLOAD` and downloaded in that iteration.  In
the code `getSyncStatus` starts from `IGNORE` and only ever answers
`DOWNLOAD` for a manifest item with the *same* key, so an entry whose key
is absent from the manifest is classified `IGNORE` and nothing is
downloaded for it that iteration (it is only picked up one iteration
later, after `save` has persisted the new listing): here the remote gains
`plugins/X.tar.bz2` while the manifest holds only `plugins/Y.tar.bz2`,
no local directory exists, and yet the sync pass downloads nothing.
The third conjunct shows the missing-manifest default for contrast. -/
theorem updater_ignores_key_absent_from_manifest :
    (getSyncStatus "/home/u" .TESTING (fun _ => false)
      ⟨"plugins/X.tar.bz2", "2020-01-02T00:00:00.000Z"⟩
      [⟨"plugins/Y.tar.bz2", "2020-01-01T00:00:00.000Z"⟩] = .ok .IGNORE) ∧
    (downloadKeys "/home/u" .TESTING (fun _ => false)
      (some [⟨"plugins/Y.tar.bz2", "2020-01-01T00:00:00.000Z"⟩])
      [⟨"plugins/X.tar.bz2", "2020-01-02T00:00:00.000Z"⟩] = .ok []) ∧
    (syncObjectStatus "/home/u" .TESTING (fun _ => false) Option.none
      ⟨"plugins/X.tar.bz2", "2020-01-02T00:00:00.000Z"⟩ = .ok .DOWNLOAD) :=
  ⟨rfl, rfl, rfl⟩

/-- **C6 (counterexample)** — The claim concludes "whenever `ready.lock`
exists, the persisted manifest is non-empty".  `ready.lock` is never
deleted: after a first error-free iteration with a non-empty listing
(which creates the lock) and a second error-free iteration with an empty
listing (which persists an empty manifest but leaves the lock in place),
the lock exists while `s3_structure.json` holds `[]`. -/
theorem ready_lock_outlives_empty_manifest :
    (updaterIteration "linux" "/home/u" .TESTING ⟨false, Option.none⟩
      (some [⟨"plugins/X.tar.bz2", "2020-01-02T00:00:00.000Z"⟩]) true =
      .ok (⟨true, some [⟨"plugins/X.tar.bz2", "2020-01-02T00:00:00.000Z"⟩]⟩, true)) ∧
    (updaterIteration "linux" "/home/u" .TESTING
      ⟨true, some [⟨"plugins/X.tar.bz2", "2020-01-02T00:00:00.000Z"⟩]⟩
      (some []) true = .ok (⟨true, some []⟩, false)) :=
  ⟨rfl, rfl⟩

/-- **C6 (amended)** — At the end of every Updater iteration, `ready.lock`
is created/touched if and only if the iteration completed without error
and the new (platform-filtered) listing is non-empty; whenever the lock is
touched, the manifest persisted by that same iteration is non-empty.
Because the lock is never removed, its mere existence does not imply the
currently persisted manifest is non-empty. -/
theorem ready_lock_touch_characterization (osType home : String)
    (env : CocoonEnvironment) (st : UpdaterState)
    (listing : Option (List S3Entry)) (syncOk : Bool)
    (st2 : UpdaterState) (touched : Bool)
    (h : updaterIteration osType home env st listing syncOk = .ok (st2, touched)) :
    (touched = true ↔ ∃ l purged, listing = some l ∧
        filterPlatform osType l = .ok purged ∧ purged ≠ [] ∧ syncOk = true) ∧
    (touched = true → ∃ purged, st2.s3Structure = some purged ∧ purged ≠ []) := by
  cases listing with
  | none =>
    simp only [updaterIteration, Except.ok.injEq, Prod.mk.injEq] at h
    constructor
    · rw [← h.2]
      simp
    · rw [← h.2]
      simp
  | some contents =>
    cases hfp : filterPlatform osType contents with
    | error e =>
      simp [updaterIteration, hfp, Bind.bind, Except.bind] at h
    | ok purged =>
      simp only [updaterIteration, hfp, Bind.bind, Except.bind] at h
      cases hs : syncOk with
      | false =>
        subst hs
        simp only [Bool.false_eq_true, if_false] at h
        simp only [Pure.pure, Except.pure, Except.ok.injEq, Prod.mk.injEq] at h
        constructor
        · rw [← h.2]
          simp
        · rw [← h.2]
          simp
      | true =>
        subst hs
        simp only [if_true] at h
        simp only [Pure.pure, Except.pure, Except.ok.injEq, Prod.mk.injEq] at h
        obtain ⟨hst, ht⟩ := h
        constructor
        · rw [← ht]
          constructor
          · intro hne
            refine ⟨contents, purged, rfl, hfp, ?_, rfl⟩
            simpa using hne
          · rintro ⟨l, p2, hl, hf2, hne, -⟩
            cases hl
            rw [hfp] at hf2
            cases hf2
            simpa using hne
        · intro ht2
          rw [← ht] at ht2
          refine ⟨purged, ?_, ?_⟩
          · rw [← hst]
          · simpa using ht2

theorem ready_lock_touch_characterization_witness :
    ∃ purged, (UpdaterState.mk true
        (some [S3Entry.mk "plugins/X.tar.bz2" "2020-01-02T00:00:00.000Z"])).s3Structure =
      some purged ∧ purged ≠ [] :=
  (ready_lock_touch_characterization "linux" "/home/u" .TESTING
    ⟨false, Option.none⟩
    (some [⟨"plugins/X.tar.bz2", "2020-01-02T00:00:00.000Z"⟩]) true
    ⟨true, some [⟨"plugins/X.tar.bz2", "2020-01-02T00:00:00.000Z"⟩]⟩ true rfl).2 rfl

/-- **C2** — For every spawned build child that has neither delivered its
terminal IPC message nor exited before the watchdog fires (2,700,000 ms
after spawn), the Builder kills the child with SIGKILL and resolves the
build with the watchdog error, whose two texts become the job's
notification; the watchdog fires at most once per child (last conjunct,
over every feasible event list). -/
theorem watchdog_kills_and_reports
    (cordovaLog : Option String) (stdoutLog : String)
    (jobCode platform : String) (starttime : Nat)
    (pre post : List BuildEvent)
    (hquiet : ∀ e ∈ pre, (∀ m, e ≠ .ipcMessage m) ∧ (∀ c s, e ≠ .exited c s))
    (hfeas : WatchdogFeasible cordovaLog stdoutLog (pre ++ .watchdog :: post)) :
    (runBuild cordovaLog stdoutLog (pre ++ .watchdog :: post)).killed = true ∧
    (runBuild cordovaLog stdoutLog (pre ++ .watchdog :: post)).result =
      some (some watchdogError) ∧
    (runBuild cordovaLog stdoutLog (pre ++ .watchdog :: post)).wdFired = 1 ∧
    notificationOf jobCode platform starttime (some watchdogError) =
      ⟨platform, jobCode, starttime,
        some "Compilation took too long, killing...",
        some "The compilation exceed the designated time."⟩ ∧
    COMPILER_WATCHDOG_INTERVAL = 2700000 ∧
    (∀ es, (runBuild cordovaLog stdoutLog es).wdFired ≤ 1) := by
  have hpre : runBuild cordovaLog stdoutLog pre = initBuildRunState :=
    buildRun_timer_fresh cordovaLog stdoutLog pre initBuildRunState
      (hfeas pre post rfl)
  have hsplit : runBuild cordovaLog stdoutLog (pre ++ .watchdog :: post) =
      (BuildEvent.watchdog :: post).foldl (buildStep cordovaLog stdoutLog)
        (runBuild cordovaLog stdoutLog pre) := by
    simp [runBuild, List.foldl_append]
  have hwd : buildStep cordovaLog stdoutLog initBuildRunState .watchdog =
      ⟨true, false, some (some watchdogError), true, 1⟩ := by
    simp [buildStep, initBuildRunState, finishBuild]
  have hfr := buildRun_frozen cordovaLog stdoutLog post
    ⟨true, false, some (some watchdogError), true, 1⟩ rfl rfl
  rw [hsplit, hpre, List.foldl_cons, hwd]
  exact ⟨hfr.2.1, hfr.1, hfr.2.2, rfl, rfl,
    watchdog_at_most_once cordovaLog stdoutLog⟩

theorem watchdog_kills_and_reports_witness :
    (runBuild Option.none "" ([] ++ BuildEvent.watchdog :: [])).killed = true ∧
    (runBuild Option.none "" ([] ++ BuildEvent.watchdog :: [])).result =
      some (some watchdogError) := by
  have h := watchdog_kills_and_reports Option.none "" "J" "android" 0 [] []
    (by intro e he; simp at he)
    (by
      intro pre post hsplit
      have hl := congrArg List.length hsplit
      simp [List.length_append] at hl
      have hpre : pre = [] := List.eq_nil_of_length_eq_zero (by omega)
      subst hpre
      rfl)
  exact ⟨h.1, h.2.1⟩

/-- **C3 (counterexample)** — The claim says every terminal error gets its
notification public message augmented with at most the last 10,000 bytes
of `cordova.log` prefixed by "CORDOVA LOG:".  Two concrete violations:
a watchdog-killed run (its error never passes through the IPC message
handler) keeps the bare public message with no "CORDOVA LOG:" in it even
though `cordova.log` exists; and an IPC error without a `msgPublic` gets
the *entire* log appended — 10,001 characters here, over the claimed
10,000-byte cap. -/
theorem error_log_augmentation_counterexample :
    ((notificationOf "J" "android" 0
        ((runBuild (some "LOG") "" [BuildEvent.watchdog]).result.getD
          Option.none)).msg_public =
      some "The compilation exceed the designated time.") ∧
    ¬ ("CORDOVA LOG".toList <:+:
        "The compilation exceed the designated time.".toList) ∧
    ((augmentIpcError (some (String.mk (List.replicate 10001 'a'))) ""
        ⟨some "m", Option.none⟩).msgPublic =
      some ("CORDOVA LOG: \n\n" ++ String.mk (List.replicate 10001 'a'))) ∧
    (String.mk (List.replicate 10001 'a')).length = 10001 :=
  ⟨rfl, by decide, rfl, List.length_replicate 10001 'a'⟩

/-- **C3 (amended)** — Only errors delivered through the child's terminal
IPC message are augmented with `cordova.log`: when the error carries a
truthy `msgPublic`, the public message becomes "COMPILER ERROR:" plus the
original text plus "CORDOVA LOG:" plus a tail of the log of at most
10,000 characters; when it does not, the public message is "CORDOVA LOG:"
plus the *entire* log, uncapped.  Errors synthesized by the watchdog (and
likewise abnormal-exit or spawn errors) reach the resolved result without
any log augmentation. -/
theorem error_log_augmentation_behavior
    (cordovaLog : Option String) (stdoutLog : String) (e : IpcError) :
    (truthy e.msgPublic = true →
      ∃ t, (augmentIpcError cordovaLog stdoutLog e).msgPublic =
          some ("COMPILER ERROR: \n\n" ++ e.msgPublic.getD "" ++
            "\n\nCORDOVA LOG: \n\n" ++ t) ∧
        t.length ≤ 10000 ∧
        t.toList <:+ (cordovaLog.getD "No log available").toList) ∧
    (truthy e.msgPublic = false →
      (augmentIpcError cordovaLog stdoutLog e).msgPublic =
        some ("CORDOVA LOG: \n\n" ++ cordovaLog.getD "No log available")) ∧
    (∀ st : BuildRunState, st.timerActive = true → st.cbCalled = false →
      (buildStep cordovaLog stdoutLog st BuildEvent.watchdog).result =
        some (some watchdogError)) := by
  have hsuf : ∀ (l : List Char) (n : Nat), (l.reverse.take n).reverse <:+ l := by
    intro l n
    refine ⟨(l.reverse.drop n).reverse, ?_⟩
    rw [← List.reverse_append, List.take_append_drop, List.reverse_reverse]
  refine ⟨?_, ?_, ?_⟩
  · intro h
    refine ⟨jsSliceLast 10000 (cordovaLog.getD "No log available"), ?_, ?_, ?_⟩
    · cases cordovaLog <;> simp [augmentIpcError, h, Option.getD]
    · have hlen : (jsSliceLast 10000 (cordovaLog.getD "No log available")).length =
          (((cordovaLog.getD "No log available").toList.reverse.take 10000).reverse).length :=
        rfl
      rw [hlen, List.length_reverse, List.length_take]
      omega
    · exact hsuf _ _
  · intro h
    cases cordovaLog <;> simp [augmentIpcError, h, Option.getD]
  · intro st h1 h2
    simp [buildStep, h1, finishBuild, h2]

theorem error_log_augmentation_behavior_witness :
    ∃ t, (augmentIpcError (some "the log") "" ⟨some "m", some "PUB"⟩).msgPublic =
        some ("COMPILER ERROR: \n\n" ++ (some "PUB").getD "" ++
          "\n\nCORDOVA LOG: \n\n" ++ t) ∧
      t.length ≤ 10000 ∧
      t.toList <:+ ((some "the log").getD "No log available").toList :=
  (error_log_augmentation_behavior (some "the log") "" ⟨some "m", some "PUB"⟩).1
    (by decide)

/-- **C7** — The claim says: a Windows job whose project name is longer
than 40 characters fails with the public message about the 40-character
limit, and a name of exactly 40 characters passes the check.  In the code
the gate evaluates `cfg.name().length() > 40`, which invokes the string
property `length` as a function and therefore raises a `TypeError` for
every project name: the gate neither rejects a 41-character name with the
advertised public error nor lets a 40-character name proceed. -/
theorem windows_name_gate_always_throws (name : String) :
    windowsNameGate name = .error .typeError := by
  rfl

/-- **C10** — For every build-child run launched over the IPC channel in
which the pipeline reaches a terminal state, the launcher exits with code
0 both on success and on structured failure, and the failure is conveyed
solely through the single IPC message (the message sent being exactly the
terminal error, or `null` on success). -/
theorem launcher_exits_zero_over_ipc (err : Option BuilderError) :
    (launcherFinish true err).exitCode = 0 ∧
    (launcherFinish true err).sentMessage = some err := by
  cases err with
  | none => exact ⟨rfl, rfl⟩
  | some e => exact ⟨rfl, rfl⟩

/-- **C8** — An Android job without a signing key invokes the native build
exactly twice, first debug then release (with no `build.json`), and its
pack filter keeps the debug and release-unsigned APKs; a job with a key
invokes the native build exactly once, in release with the `build.json`
signing descriptor, and its pack filter keeps only paths ending in one of
the six `-release.apk` suffixes (neither the debug nor the
release-unsigned artifact names pass it). -/
theorem android_build_invocations (cordovaProjectPath : String) :
    (compileInvocations (androidBuildTasks false cordovaProjectPath) =
      [⟨false, true, Option.none⟩, ⟨true, true, Option.none⟩]) ∧
    (compileInvocations (androidBuildTasks true cordovaProjectPath) =
      [⟨true, true, some (cordovaProjectPath ++ "/build.json")⟩]) ∧
    (∀ (files : List String) (f : String), f ∈ files →
      (jsEndsWith f "/app-debug.apk" = true ∨
        jsEndsWith f "/app-release-unsigned.apk" = true) →
      f ∈ androidPack false files) ∧
    (∀ (files : List String) (f : String), f ∈ androidPack true files →
      ∃ suf, suf ∈ releaseApkSuffixes ∧ jsEndsWith f suf = true) ∧
    (androidPackFilter true "out/app-debug.apk" = false ∧
     androidPackFilter true "out/app-release-unsigned.apk" = false ∧
     androidPackFilter true "out/app-release.apk" = true) := by
  refine ⟨rfl, rfl, ?_, ?_, by decide, by decide, by decide⟩
  · intro files f hmem hsuffix
    refine List.mem_filter.mpr ⟨hmem, ?_⟩
    cases hsuffix with
    | inl h =>
      exact List.any_eq_true.mpr ⟨"/app-debug.apk", by decide, h⟩
    | inr h =>
      exact List.any_eq_true.mpr ⟨"/app-release-unsigned.apk", by decide, h⟩
  · intro files f hmem
    have h := (List.mem_filter.mp hmem).2
    simp only [androidPackFilter, if_pos] at h
    obtain ⟨suf, hsuf, hends⟩ := List.any_eq_true.mp h
    exact ⟨suf, hsuf, hends⟩

theorem android_build_invocations_witness :
    "out/app-debug.apk" ∈ androidPack false ["out/app-debug.apk", "out/x.txt"] :=
  (android_build_invocations "p").2.2.1 ["out/app-debug.apk", "out/x.txt"]
    "out/app-debug.apk" (by simp) (Or.inl (by decide))

/-- **C9 (counterexample)** — The claim says the purge is triggered before
each Builder iteration whenever root-fs or home-fs is below 1 GiB or 25%
free, with no environment proviso.  In DEVELOP the pipeline's final
callback never calls `cleanUp`, so even a root filesystem with 0 bytes
free (far below 1 GiB, the claim's trigger) produces no purge. -/
theorem disk_pressure_develop_counterexample :
    ((DiskSpace.mk 0 100).available < 1 * 1024 ^ 3) ∧
    builderPipelinePurge .DEVELOP ⟨0, 100⟩ ⟨100, 100⟩ = false :=
  ⟨by decide, rfl⟩

/-- **C9 (amended)** — Outside DEVELOP, at the end of each build-child
pipeline run (not before each Builder iteration), the temporary-files
purge is triggered if and only if the root filesystem has less than 1 GiB
or less than 25% free, or the home filesystem has less than **10 GiB** or
less than 25% free; in particular the claim's 1-GiB/25% condition is
sufficient there.  On POSIX hosts an entry not owned by the current user
is never removed. -/
theorem disk_pressure_purge_characterization (env : CocoonEnvironment)
    (root home : DiskSpace) (henv : env ≠ .DEVELOP) :
    (builderPipelinePurge env root home = true ↔
      (root.available < 1 * 1024 ^ 3 ∨ 100 * root.available < 25 * root.total ∨
       home.available < 10 * 1024 ^ 3 ∨ 100 * home.available < 25 * home.total)) ∧
    ((root.available < 1 * 1024 ^ 3 ∨ 100 * root.available < 25 * root.total ∨
      home.available < 1 * 1024 ^ 3 ∨ 100 * home.available < 25 * home.total) →
      builderPipelinePurge env root home = true) ∧
    (∀ (entryName : String) (isDir : Bool),
      shouldRemoveTmpEntry false entryName isDir false = false) := by
  have hiff : builderPipelinePurge env root home = true ↔
      (root.available < 1 * 1024 ^ 3 ∨ 100 * root.available < 25 * root.total ∨
       home.available < 10 * 1024 ^ 3 ∨ 100 * home.available < 25 * home.total) := by
    simp [builderPipelinePurge, cleanUpTriggers, henv, or_assoc]
  refine ⟨hiff, ?_, ?_⟩
  · intro hc
    refine hiff.mpr ?_
    rcases hc with h | h | h | h
    · exact Or.inl h
    · exact Or.inr (Or.inl h)
    · refine Or.inr (Or.inr (Or.inl ?_))
      have : (1 * 1024 ^ 3 : Nat) ≤ 10 * 1024 ^ 3 := by norm_num
      omega
    · exact Or.inr (Or.inr (Or.inr h))
  · intro entryName isDir
    simp [shouldRemoveTmpEntry]

theorem disk_pressure_purge_characterization_witness :
    builderPipelinePurge .TESTING ⟨0, 100⟩ ⟨100, 100⟩ = true :=
  (disk_pressure_purge_characterization .TESTING ⟨0, 100⟩ ⟨100, 100⟩
    (by decide)).2.1 (Or.inl (by decide))

end Cocoon
